import Mathlib

/-!
Verification development for the LaunchPadStreamer repository (`src/main.go`).

The Go program drives an 8×8 RGB pad surface and layers three small games
(ColorChanger, PixelPaint, TicTacToe) over pad-press events, coordinated by a
GameManager.  Below, each Go function relevant to the checked properties is
embedded as a Lean definition; machine integers (`uint8`, `int`) become `Nat`
or `Int` with explicit wrap-around where overflow is possible, the global
`pads` map becomes an explicit `Registry` value threaded through the
functions, and MIDI output becomes an explicit list of emitted commands.
-/

/-- `PadPos` mirrors Go `type PadPos struct { row, col uint8 }`. -/
structure PadPos where
  row : Nat
  col : Nat
deriving DecidableEq, Repr

/-- `Pad` mirrors Go `type Pad struct { pos PadPos; color, lightMode uint8 }`. -/
structure Pad where
  pos : PadPos
  color : Nat
  lightMode : Nat
deriving DecidableEq, Repr

/-- Light-mode constants, from the Go `const ( Permanent = iota; Blinking; Pulsing )`. -/
def Permanent : Nat := 0

def Blinking : Nat := 1

def Pulsing : Nat := 2

/-- Go `NewPad(pos PadPos) Pad`: zero color, `Permanent` light mode. -/
def NewPad (pos : PadPos) : Pad :=
  { pos := pos, color := 0, lightMode := Permanent }

/-- Go `(p *Pad) getKey() uint8 { return p.pos.row*10 + p.pos.col }`;
the multiply-add is `uint8` arithmetic, hence the `% 256`. -/
def Pad.getKey (p : Pad) : Nat :=
  (p.pos.row * 10 + p.pos.col) % 256

/-- Key of a bare position, i.e. `Pad.getKey` of any pad sitting at it. -/
def PadPos.key (pos : PadPos) : Nat :=
  (pos.row * 10 + pos.col) % 256

/-- Go `PadPosFromKey(key uint8) PadPos { return PadPos{key / 10, key % 10} }`.
The argument is a `uint8`, so theorems quantify over `key < 256`. -/
def PadPosFromKey (key : Nat) : PadPos :=
  { row := key / 10, col := key % 10 }

/-- The global Go map `var pads = make(map[uint8]Pad)`, as an explicit value:
`none` for an absent key. -/
def Registry : Type := Nat → Option Pad

/-- Reading a Go map yields the zero value for absent keys. -/
def zeroPad : Pad :=
  { pos := { row := 0, col := 0 }, color := 0, lightMode := 0 }

/-- Go map read `pads[key]` (zero value when the key is absent). -/
def Registry.read (m : Registry) (key : Nat) : Pad :=
  (m key).getD zeroPad

/-- Go map write `pads[key] = pad`. -/
def Registry.store (m : Registry) (key : Nat) (p : Pad) : Registry :=
  fun k => if k = key then some p else m k

/-- The empty registry (fresh `make(map[uint8]Pad)`). -/
def Registry.empty : Registry := fun _ => none

/-- One outbound MIDI message, as produced by `sendNote`. -/
inductive MidiCmd where
  | noteOn (channel key color : Nat)
  | noteOff (channel key : Nat)
  | controlChange (channel key value : Nat)
deriving DecidableEq, Repr

/-- Go `sendNote(on bool, pad Pad)`: stores the pad under its key in the
global map, then emits `NoteOn`/`NoteOff` for grid pads and a `ControlChange`
for control pads (`col > 8 || row > 8`). -/
def sendNote (onFlag : Bool) (pad : Pad) (m : Registry) : Registry × MidiCmd :=
  let m' := m.store pad.getKey pad
  if onFlag then
    if pad.pos.col > 8 ∨ pad.pos.row > 8 then
      (m', .controlChange pad.lightMode pad.getKey pad.color)
    else
      (m', .noteOn pad.lightMode pad.getKey pad.color)
  else
    if pad.pos.col > 8 ∨ pad.pos.row > 8 then
      (m', .controlChange pad.lightMode pad.getKey 0)
    else
      (m', .noteOff pad.lightMode pad.getKey)

/-- Go `changeColor(pad Pad)`: read the stored pad for the pressed pad's key,
bump its color (`+4` below 128, wrap to 0 at or above 128; `c+4` never
overflows `uint8` for `c < 128 ≤ 252`), and send it back on.
`ColorChangerGame.HandlePadPress` is exactly this call. -/
def changeColor (pad : Pad) (m : Registry) : Registry × MidiCmd :=
  let curPad := m.read pad.getKey
  let curPad :=
    if curPad.color < 128 then { curPad with color := curPad.color + 4 }
    else { curPad with color := 0 }
  sendNote true curPad m

/-- Registry after `n` repeated presses of `pad` in the ColorChanger game. -/
def pressTimes (pad : Pad) (m : Registry) : Nat → Registry
  | 0 => m
  | n + 1 => (changeColor pad (pressTimes pad m n)).1

/-- The successor color of `changeColor`, named for the statement of C6. -/
def nextColor (c : Nat) : Nat :=
  if c < 128 then c + 4 else 0

/-! ## Game manager

Games are abstracted by an identifier; `Start`/`Stop` calls and the surface
clear become an explicit event trace. -/

/-- One observable action of `GameManager` code: a `Stop` or `Start` call on a
game, or the `clearPad()` full-surface wipe. -/
inductive GMEvent where
  | stop (game : Nat)
  | clearSurface
  | start (game : Nat)
deriving DecidableEq, Repr

/-- Go `GameManager`: active game (nil-able interface value), game list,
current index.  Games are identifiers here. -/
structure GameManager where
  currentGame : Option Nat
  games : List Nat
  currentIdx : Nat
deriving DecidableEq, Repr

/-- Go `NewGameManager()`. -/
def NewGameManager : GameManager :=
  { currentGame := none, games := [], currentIdx := 0 }

/-- Go `(gm *GameManager) AddGame(game Game)`. -/
def GameManager.AddGame (gm : GameManager) (game : Nat) : GameManager :=
  { gm with games := gm.games ++ [game] }

/-- Go `StartCurrentGame`: when the list is nonempty, set
`currentGame = games[currentIdx]` and call its `Start` (the code performs no
check that no game is already active).  `games[currentIdx]` is in range in
every state the program reaches; out of range, `List.getD` supplies 0 where
Go would panic. -/
def GameManager.StartCurrentGame (gm : GameManager) : GameManager × List GMEvent :=
  if 0 < gm.games.length then
    let game := gm.games.getD gm.currentIdx 0
    ({ gm with currentGame := some game }, [.start game])
  else
    (gm, [])

/-- Go `SwitchToNextGame`: no-op on an empty list; otherwise `Stop` the active
game (if any), advance `currentIdx = (currentIdx+1) % len(games)`, clear the
surface, and `Start` the new current game. -/
def GameManager.SwitchToNextGame (gm : GameManager) : GameManager × List GMEvent :=
  if gm.games.length = 0 then
    (gm, [])
  else
    let stopEvents : List GMEvent :=
      match gm.currentGame with
      | some g => [.stop g]
      | none => []
    let newIdx := (gm.currentIdx + 1) % gm.games.length
    let newGame := gm.games.getD newIdx 0
    ({ currentGame := some newGame, games := gm.games, currentIdx := newIdx },
      stopEvents ++ [.clearSurface, .start newGame])

/-- State after iterating `SwitchToNextGame` (discarding events). -/
def switchIter (gm : GameManager) : Nat → GameManager
  | 0 => gm
  | n + 1 => (switchIter gm n).SwitchToNextGame.1

/-! ## Inbound MIDI routing (`midiNoteReceived`) -/

/-- What `midiNoteReceived` does with one inbound message. -/
inductive RouteAction where
  | ignored
  | switchGame
  | dropControl
  | dispatch (pad : Pad)
deriving DecidableEq, Repr

/-- The NoteOn branch of Go `midiNoteReceived`: with `velocity > 0`, build
`NewPad(PadPosFromKey(key))` and forward it to
`gameManager.HandlePadPress`. -/
def midiNoteOnReceived (key velocity : Nat) : RouteAction :=
  if 0 < velocity then
    .dispatch (NewPad (PadPosFromKey key))
  else
    .ignored

/-- The ControlChange branch of Go `midiNoteReceived`: with `value > 0`, build
`NewPad(PadPosFromKey(controller))`; (row 1, col 9) switches games, any other
col-9 pad is logged and dropped, everything else goes to
`gameManager.HandlePadPress`. -/
def midiControlChangeReceived (controller value : Nat) : RouteAction :=
  if 0 < value then
    let pad := NewPad (PadPosFromKey controller)
    if pad.pos.row = 1 ∧ pad.pos.col = 9 then
      .switchGame
    else if pad.pos.col = 9 then
      .dropControl
    else
      .dispatch pad
  else
    .ignored

/-! ## PixelPaint game -/

/-- Go `PixelPaintGame` state: current color, fixed palette, selection index
(`colorIndex` is a Go `int` that only ever holds `row-1 ∈ [0,7]` or 0). -/
structure PixelPaintGame where
  currentColor : Nat
  colorPalette : List Nat
  colorIndex : Nat
deriving DecidableEq, Repr

/-- Launchpad color constants used by the program (Go `const` block). -/
def ColorOff : Nat := 0
def ColorWhite : Nat := 3
def ColorRed : Nat := 5
def ColorOrange : Nat := 9
def ColorYellow : Nat := 13
def ColorGreen : Nat := 21
def ColorCyan : Nat := 37
def ColorBlue : Nat := 45
def ColorPurple : Nat := 49
def ColorMagenta : Nat := 53
def ColorPink : Nat := 57

/-- Go `NewPixelPaintGame()`. -/
def NewPixelPaintGame : PixelPaintGame :=
  { currentColor := ColorRed
    colorPalette :=
      [ColorRed, ColorOrange, ColorYellow, ColorGreen, ColorCyan,
        ColorBlue, ColorPurple, ColorMagenta, ColorPink, ColorWhite]
    colorIndex := 0 }

/-- Go `(g *PixelPaintGame) highlightCurrentColor()`: loop `i` over the
palette; for `i < 8` re-send swatch pad `(i+1, 1)` with palette color `i`,
`Pulsing` when `i == colorIndex`, else `Permanent`. -/
def PixelPaintGame.highlightCurrentColor (g : PixelPaintGame) (m : Registry) :
    Registry × List MidiCmd :=
  (List.range g.colorPalette.length).foldl
    (fun acc i =>
      if i < 8 then
        let pad : Pad :=
          { pos := { row := i + 1, col := 1 }
            color := g.colorPalette.getD i 0
            lightMode := if i = g.colorIndex then Pulsing else Permanent }
        let r := sendNote true pad acc.1
        (r.1, acc.2 ++ [r.2])
      else acc)
    (m, [])

/-- Go `(g *PixelPaintGame) HandlePadPress(pad Pad)`: a left-column press
(col 1, row 1–8) selects `colorIndex = row-1` and re-renders the swatches;
any other press paints the pad with the current color. -/
def PixelPaintGame.HandlePadPress (g : PixelPaintGame) (pad : Pad) (m : Registry) :
    PixelPaintGame × Registry × List MidiCmd :=
  if pad.pos.col = 1 ∧ 1 ≤ pad.pos.row ∧ pad.pos.row ≤ 8 then
    let g' := { g with colorIndex := pad.pos.row - 1 }
    if g'.colorIndex < g'.colorPalette.length then
      let g'' := { g' with currentColor := g'.colorPalette.getD g'.colorIndex 0 }
      let r := g''.highlightCurrentColor m
      (g'', r.1, r.2)
    else
      (g', m, [])
  else
    let pad' := { pad with color := g.currentColor }
    let r := sendNote true pad' m
    (g, r.1, [r.2])

/-! ## TicTacToe game -/

/-- A 3×3 board of Go `int` cell owners, indexed exactly as the Go array
`board [3][3]int` is (indices used by the program are always in `[0,3)`). -/
def Board : Type := Int → Int → Int

/-- Go array update `board[r][c] = v`. -/
def setCell (b : Board) (r c : Int) (v : Int) : Board :=
  fun r' c' => if r' = r ∧ c' = c then v else b r' c'

/-- The zeroed board `[3][3]int{}`. -/
def emptyBoard : Board := fun _ _ => 0

/-- Build a board from nine explicit entries, row-major. -/
def mkBoard (a00 a01 a02 a10 a11 a12 a20 a21 a22 : Int) : Board :=
  fun r c =>
    if r = 0 then (if c = 0 then a00 else if c = 1 then a01 else if c = 2 then a02 else 0)
    else if r = 1 then (if c = 0 then a10 else if c = 1 then a11 else if c = 2 then a12 else 0)
    else if r = 2 then (if c = 0 then a20 else if c = 1 then a21 else if c = 2 then a22 else 0)
    else 0

/-- One entry of Go `moveHistory []struct{ row, col, player int }`. -/
structure Move where
  row : Int
  col : Int
  player : Int
deriving DecidableEq, Repr, Inhabited

/-- Go `TicTacToeGame` game state (the surface side effects of the Go methods
are not part of the claims about this game and are not tracked). -/
structure TState where
  board : Board
  currentPlayer : Int
  gameOver : Bool
  winner : Int
  moveHistory : List Move
  maxMoves : Int

/-- Go `(g *TicTacToeGame) Start()` state reset (the scrolling text and grid
drawing touch only the surface); `NewTicTacToeGame()` builds the same state
with `maxMoves = 2` (`maxMoves` is never read by the game logic). -/
def ticTacToeStart : TState :=
  { board := emptyBoard
    currentPlayer := 1
    gameOver := false
    winner := 0
    moveHistory := []
    maxMoves := 2 }

/-- Go `(g *TicTacToeGame) checkWinner() bool`: the two `for` loops over rows
and columns unrolled, then the two diagonals. -/
def checkWinner (b : Board) : Bool :=
  decide (b 0 0 ≠ 0 ∧ b 0 0 = b 0 1 ∧ b 0 1 = b 0 2) ||
  decide (b 1 0 ≠ 0 ∧ b 1 0 = b 1 1 ∧ b 1 1 = b 1 2) ||
  decide (b 2 0 ≠ 0 ∧ b 2 0 = b 2 1 ∧ b 2 1 = b 2 2) ||
  decide (b 0 0 ≠ 0 ∧ b 0 0 = b 1 0 ∧ b 1 0 = b 2 0) ||
  decide (b 0 1 ≠ 0 ∧ b 0 1 = b 1 1 ∧ b 1 1 = b 2 1) ||
  decide (b 0 2 ≠ 0 ∧ b 0 2 = b 1 2 ∧ b 1 2 = b 2 2) ||
  decide (b 0 0 ≠ 0 ∧ b 0 0 = b 1 1 ∧ b 1 1 = b 2 2) ||
  decide (b 0 2 ≠ 0 ∧ b 0 2 = b 1 1 ∧ b 1 1 = b 2 0)

/-- Go `(g *TicTacToeGame) padToGridPosition(pad Pad) (int, int)`: physical
rows 7–8/4–5/1–2 map to logical rows 0/1/2 (inverted), physical columns
1–2/4–5/7–8 map to logical columns 0/1/2; anything else yields `-1`. -/
def padToGridPosition (pad : Pad) : Int × Int :=
  let gridRow : Int :=
    if 7 ≤ pad.pos.row ∧ pad.pos.row ≤ 8 then 0
    else if 4 ≤ pad.pos.row ∧ pad.pos.row ≤ 5 then 1
    else if 1 ≤ pad.pos.row ∧ pad.pos.row ≤ 2 then 2
    else -1
  let gridCol : Int :=
    if 1 ≤ pad.pos.col ∧ pad.pos.col ≤ 2 then 0
    else if 4 ≤ pad.pos.col ∧ pad.pos.col ≤ 5 then 1
    else if 7 ≤ pad.pos.col ∧ pad.pos.col ≤ 8 then 2
    else -1
  (gridRow, gridCol)

/-- Go `(g *TicTacToeGame) HandlePadPress(pad Pad)`: press after game over
resets via `Start`; an invalid mapping or occupied cell is ignored; with 7
moves recorded the oldest is removed (its board cell zeroed) before the new
move is placed, appended to the history, and the winner check either ends the
game or alternates the player. -/
def TState.HandlePadPress (g : TState) (pad : Pad) : TState :=
  if g.gameOver then
    ticTacToeStart
  else
    let gp := padToGridPosition pad
    let gridRow := gp.1
    let gridCol := gp.2
    if gridRow = -1 ∨ gridCol = -1 then g
    else if g.board gridRow gridCol ≠ 0 then g
    else
      let g1 :=
        if 7 ≤ g.moveHistory.length then
          match g.moveHistory with
          | [] => g
          | oldest :: rest =>
            { g with
                board := setCell g.board oldest.row oldest.col 0
                moveHistory := rest }
        else g
      let g2 :=
        { g1 with
            board := setCell g1.board gridRow gridCol g.currentPlayer
            moveHistory := g1.moveHistory ++ [(⟨gridRow, gridCol, g.currentPlayer⟩ : Move)] }
      if checkWinner g2.board then
        { g2 with gameOver := true, winner := g.currentPlayer }
      else
        { g2 with currentPlayer := if g.currentPlayer = 1 then 2 else 1 }

/-- States of the TicTacToe game reachable from a fresh `Start` by pad
presses. -/
inductive TReachable : TState → Prop where
  | start : TReachable ticTacToeStart
  | step {g : TState} (pad : Pad) : TReachable g → TReachable (g.HandlePadPress pad)

/-- Fold a list of presses through `HandlePadPress`. -/
def pressSeq (g : TState) (pads : List Pad) : TState :=
  pads.foldl TState.HandlePadPress g

/-- Number of nonzero cells among the nine board positions. -/
def countMarks (b : Board) : Nat :=
  (if b 0 0 ≠ 0 then 1 else 0) + (if b 0 1 ≠ 0 then 1 else 0) +
  (if b 0 2 ≠ 0 then 1 else 0) + (if b 1 0 ≠ 0 then 1 else 0) +
  (if b 1 1 ≠ 0 then 1 else 0) + (if b 1 2 ≠ 0 then 1 else 0) +
  (if b 2 0 ≠ 0 then 1 else 0) + (if b 2 1 ≠ 0 then 1 else 0) +
  (if b 2 2 ≠ 0 then 1 else 0)

/-- The command `sendNote(On, pad)` emits (the "turn this pad on" message). -/
def onCommand (pad : Pad) : MidiCmd :=
  if pad.pos.col > 8 ∨ pad.pos.row > 8 then
    .controlChange pad.lightMode pad.getKey pad.color
  else
    .noteOn pad.lightMode pad.getKey pad.color

lemma sendNote_on (pad : Pad) (m : Registry) :
    sendNote true pad m = (m.store pad.getKey pad, onCommand pad) := by
  unfold sendNote onCommand
  by_cases h : pad.pos.col > 8 ∨ pad.pos.row > 8 <;> simp [h]

/-! ### Branch characterizations of `TState.HandlePadPress` -/

lemma handle_gameOver {g : TState} (pad : Pad) (hgo : g.gameOver = true) :
    g.HandlePadPress pad = ticTacToeStart := by
  unfold TState.HandlePadPress
  rw [if_pos hgo]

lemma handle_invalid {g : TState} (pad : Pad) (hgo : g.gameOver = false)
    (h : (padToGridPosition pad).1 = -1 ∨ (padToGridPosition pad).2 = -1) :
    g.HandlePadPress pad = g := by
  unfold TState.HandlePadPress
  rw [hgo]
  simp only [Bool.false_eq_true, if_false]
  rw [if_pos h]

lemma handle_occupied {g : TState} (pad : Pad) (hgo : g.gameOver = false)
    (h : ¬((padToGridPosition pad).1 = -1 ∨ (padToGridPosition pad).2 = -1))
    (hocc : g.board (padToGridPosition pad).1 (padToGridPosition pad).2 ≠ 0) :
    g.HandlePadPress pad = g := by
  unfold TState.HandlePadPress
  rw [hgo]
  simp only [Bool.false_eq_true, if_false]
  rw [if_neg h, if_pos hocc]

/-- The main (placing) branch of `HandlePadPress`: on a valid press at an
empty cell, some pre-state `b1`/`h1` (the post-eviction board and history) is
extended with the new move. -/
lemma handle_main {g : TState} (pad : Pad) (r c : Int)
    (hgo : g.gameOver = false)
    (hmap : padToGridPosition pad = (r, c)) (hr : r ≠ -1) (hc : c ≠ -1)
    (hempty : g.board r c = 0) :
    ∃ (b1 : Board) (h1 : List Move),
      ((g.moveHistory.length < 7 ∧ b1 = g.board ∧ h1 = g.moveHistory) ∨
        (∃ oldest rest, g.moveHistory = oldest :: rest ∧ 7 ≤ g.moveHistory.length ∧
          b1 = setCell g.board oldest.row oldest.col 0 ∧ h1 = rest)) ∧
      g.HandlePadPress pad =
        (if checkWinner (setCell b1 r c g.currentPlayer) then
          { g with
              board := setCell b1 r c g.currentPlayer
              moveHistory := h1 ++ [(⟨r, c, g.currentPlayer⟩ : Move)]
              gameOver := true
              winner := g.currentPlayer }
        else
          { g with
              board := setCell b1 r c g.currentPlayer
              moveHistory := h1 ++ [(⟨r, c, g.currentPlayer⟩ : Move)]
              currentPlayer := if g.currentPlayer = 1 then 2 else 1 }) := by
  by_cases hlen : 7 ≤ g.moveHistory.length
  · obtain ⟨oldest, rest, hh⟩ : ∃ o r, g.moveHistory = o :: r := by
      cases hmh : g.moveHistory with
      | nil => rw [hmh] at hlen; simp at hlen
      | cons o r => exact ⟨o, r, rfl⟩
    refine ⟨setCell g.board oldest.row oldest.col 0, rest,
      Or.inr ⟨oldest, rest, hh, hlen, rfl, rfl⟩, ?_⟩
    unfold TState.HandlePadPress
    rw [if_neg (show ¬(g.gameOver = true) by simp [hgo])]
    dsimp only
    rw [hmap]
    dsimp only
    rw [if_neg (by simp [hr, hc]), if_neg (by simp [hempty]), if_pos hlen, hh]
  · refine ⟨g.board, g.moveHistory, Or.inl ⟨by omega, rfl, rfl⟩, ?_⟩
    unfold TState.HandlePadPress
    rw [if_neg (show ¬(g.gameOver = true) by simp [hgo])]
    dsimp only
    rw [hmap]
    dsimp only
    rw [if_neg (by simp [hr, hc]), if_neg (by simp [hempty]), if_neg hlen]

/-! ### Board read lemmas -/

lemma setCell_read_eq (b : Board) (r c v : Int) : setCell b r c v r c = v := by
  simp [setCell]

lemma setCell_read_ne (b : Board) (r c v r' c' : Int) (h : (r', c') ≠ (r, c)) :
    setCell b r c v r' c' = b r' c' := by
  simp only [setCell, ite_eq_right_iff, and_imp]
  intro h1 h2
  exact absurd (by rw [h1, h2]) h

lemma setCell_read_ne' (b : Board) (r c v r' c' : Int) (h : ¬(r' = r ∧ c' = c)) :
    setCell b r c v r' c' = b r' c' := by
  simp only [setCell, ite_eq_right_iff, and_imp]
  intro h1 h2
  exact absurd ⟨h1, h2⟩ h

/-! ### The TicTacToe state invariant -/

/-- Invariant of reachable TicTacToe states: bounded history, a legal current
player, every recorded move still marked on the board with a nonzero owner,
and pairwise-distinct history cells. -/
def TInv (g : TState) : Prop :=
  g.moveHistory.length ≤ 7 ∧
  (g.currentPlayer = 1 ∨ g.currentPlayer = 2) ∧
  (∀ mv ∈ g.moveHistory, g.board mv.row mv.col = mv.player ∧ mv.player ≠ 0) ∧
  g.moveHistory.Pairwise (fun a b => ¬(a.row = b.row ∧ a.col = b.col))

lemma TInv_start : TInv ticTacToeStart := by
  simp [TInv, ticTacToeStart]

lemma TInv_step {g : TState} (pad : Pad) (hInv : TInv g) : TInv (g.HandlePadPress pad) := by
  obtain ⟨hlen, hpl, hocc, hpw⟩ := hInv
  by_cases hgo : g.gameOver = true
  · rw [handle_gameOver pad hgo]; exact TInv_start
  · rw [Bool.not_eq_true] at hgo
    by_cases hvalid : (padToGridPosition pad).1 = -1 ∨ (padToGridPosition pad).2 = -1
    · rw [handle_invalid pad hgo hvalid]; exact ⟨hlen, hpl, hocc, hpw⟩
    · by_cases hcell : g.board (padToGridPosition pad).1 (padToGridPosition pad).2 ≠ 0
      · rw [handle_occupied pad hgo hvalid hcell]; exact ⟨hlen, hpl, hocc, hpw⟩
      · push_neg at hvalid hcell
        obtain ⟨b1, h1, hcase, heq⟩ := handle_main pad (padToGridPosition pad).1
          (padToGridPosition pad).2 hgo rfl hvalid.1 hvalid.2 hcell
        set r := (padToGridPosition pad).1
        set c := (padToGridPosition pad).2
        -- facts about the post-eviction board and history
        have hb1cell : b1 r c = 0 := by
          rcases hcase with ⟨_, hb, _⟩ | ⟨oldest, rest, _, _, hb, _⟩
          · rw [hb]; exact hcell
          · rw [hb]
            by_cases hsame : (r, c) = (oldest.row, oldest.col)
            · rw [show r = oldest.row by exact congrArg Prod.fst hsame,
                show c = oldest.col by exact congrArg Prod.snd hsame]
              exact setCell_read_eq ..
            · rw [setCell_read_ne _ _ _ _ _ _ hsame]; exact hcell
        have hh1occ : ∀ mv ∈ h1, b1 mv.row mv.col = mv.player ∧ mv.player ≠ 0 := by
          rcases hcase with ⟨_, hb, hl⟩ | ⟨oldest, rest, hmh, _, hb, hl⟩
          · intro mv hmv; rw [hb, hl] at *; exact hocc mv hmv
          · intro mv hmv
            rw [hl] at hmv
            have hne : ¬(mv.row = oldest.row ∧ mv.col = oldest.col) := by
              rw [hmh] at hpw
              exact fun hand => (List.pairwise_cons.mp hpw).1 mv hmv ⟨hand.1.symm, hand.2.symm⟩
            rw [hb, setCell_read_ne' _ _ _ _ _ _ hne]
            exact hocc mv (by rw [hmh]; exact List.mem_cons_of_mem _ hmv)
        have hh1pw : h1.Pairwise (fun a b => ¬(a.row = b.row ∧ a.col = b.col)) := by
          rcases hcase with ⟨_, _, hl⟩ | ⟨oldest, rest, hmh, _, _, hl⟩
          · rw [hl]; exact hpw
          · rw [hl]; rw [hmh] at hpw; exact (List.pairwise_cons.mp hpw).2
        have hh1len : h1.length + 1 ≤ 7 := by
          rcases hcase with ⟨hl7, _, hl⟩ | ⟨oldest, rest, hmh, h7, _, hl⟩
          · rw [hl]; omega
          · rw [hl]; rw [hmh] at hlen; simp at hlen; omega
        have hnewocc : ∀ mv ∈ h1, ¬(mv.row = r ∧ mv.col = c) := by
          intro mv hmv hand
          have := (hh1occ mv hmv).1
          rw [hand.1, hand.2, hb1cell] at this
          exact (hh1occ mv hmv).2 this.symm
        -- the two final branches share board, history and (for one) the player
        rw [heq]
        have hboard : ∀ mv ∈ h1 ++ [(⟨r, c, g.currentPlayer⟩ : Move)],
            setCell b1 r c g.currentPlayer mv.row mv.col = mv.player ∧ mv.player ≠ 0 := by
          intro mv hmv
          rcases List.mem_append.mp hmv with hmem | hmem
          · rw [setCell_read_ne' _ _ _ _ _ _ (hnewocc mv hmem)]
            exact hh1occ mv hmem
          · rw [List.mem_singleton.mp hmem]
            refine ⟨setCell_read_eq .., ?_⟩
            rcases hpl with h | h <;> simp [h]
        have hpwnew : (h1 ++ [(⟨r, c, g.currentPlayer⟩ : Move)]).Pairwise
            (fun a b => ¬(a.row = b.row ∧ a.col = b.col)) := by
          rw [List.pairwise_append]
          exact ⟨hh1pw, List.pairwise_singleton .., fun a ha b hb =>
            by rw [List.mem_singleton.mp hb]; exact hnewocc a ha⟩
        split
        · exact ⟨by simpa using hh1len, hpl, hboard, hpwnew⟩
        · refine ⟨by simpa using hh1len, ?_, hboard, hpwnew⟩
          rcases hpl with h | h <;> simp [h]

lemma TInv_reachable {g : TState} (h : TReachable g) : TInv g := by
  induction h with
  | start => exact TInv_start
  | step pad _ ih => exact TInv_step pad ih

/-! ### Mark-counting lemmas -/

lemma countMarks_empty : countMarks emptyBoard = 0 := by
  simp [countMarks, emptyBoard]

lemma countMarks_set_fresh (b : Board) (r c v : Int)
    (hr0 : 0 ≤ r) (hr3 : r < 3) (hc0 : 0 ≤ c) (hc3 : c < 3)
    (h0 : b r c = 0) (hv : v ≠ 0) :
    countMarks (setCell b r c v) = countMarks b + 1 := by
  interval_cases r <;> interval_cases c <;>
    simp only [countMarks, setCell, and_true, and_false, true_and, false_and,
      if_true, if_false] <;>
    simp [h0, hv] <;> omega

lemma countMarks_clear (b : Board) (r c : Int)
    (hr0 : 0 ≤ r) (hr3 : r < 3) (hc0 : 0 ≤ c) (hc3 : c < 3)
    (h0 : b r c ≠ 0) :
    countMarks (setCell b r c 0) + 1 = countMarks b := by
  interval_cases r <;> interval_cases c <;>
    simp only [countMarks, setCell, and_true, and_false, true_and, false_and,
      if_true, if_false] <;>
    simp [h0] <;> omega

/-! ### Range of the grid mapping -/

lemma grid_row_range (pad : Pad) (h : (padToGridPosition pad).1 ≠ -1) :
    0 ≤ (padToGridPosition pad).1 ∧ (padToGridPosition pad).1 < 3 := by
  unfold padToGridPosition at *
  dsimp only at *
  split_ifs at * <;> simp_all

lemma grid_col_range (pad : Pad) (h : (padToGridPosition pad).2 ≠ -1) :
    0 ≤ (padToGridPosition pad).2 ∧ (padToGridPosition pad).2 < 3 := by
  unfold padToGridPosition at *
  dsimp only at *
  split_ifs at * <;> simp_all

/-! ### Explicit step lemmas for valid, non-winning presses -/

lemma step_noEvict_p1 {g : TState} (pad : Pad) (r c : Int)
    (hgo : g.gameOver = false) (hmap : padToGridPosition pad = (r, c))
    (hr : r ≠ -1) (hc : c ≠ -1) (hempty : g.board r c = 0)
    (hlen : g.moveHistory.length < 7) (hpl : g.currentPlayer = 1)
    (hnw : (g.HandlePadPress pad).gameOver = false) :
    g.HandlePadPress pad =
      { board := setCell g.board r c 1
        currentPlayer := 2
        gameOver := false
        winner := g.winner
        moveHistory := g.moveHistory ++ [(⟨r, c, 1⟩ : Move)]
        maxMoves := g.maxMoves } := by
  obtain ⟨b1, h1, hcase, heq⟩ := handle_main pad r c hgo hmap hr hc hempty
  rcases hcase with ⟨_, hb, hl⟩ | ⟨oldest, rest, _, h7, _, _⟩
  · subst hb hl
    by_cases hw : checkWinner (setCell g.board r c g.currentPlayer) = true
    · rw [heq, if_pos hw] at hnw
      simp at hnw
    · rw [heq, if_neg hw]
      simp [hpl, hgo]
  · omega

lemma step_noEvict_p2 {g : TState} (pad : Pad) (r c : Int)
    (hgo : g.gameOver = false) (hmap : padToGridPosition pad = (r, c))
    (hr : r ≠ -1) (hc : c ≠ -1) (hempty : g.board r c = 0)
    (hlen : g.moveHistory.length < 7) (hpl : g.currentPlayer = 2)
    (hnw : (g.HandlePadPress pad).gameOver = false) :
    g.HandlePadPress pad =
      { board := setCell g.board r c 2
        currentPlayer := 1
        gameOver := false
        winner := g.winner
        moveHistory := g.moveHistory ++ [(⟨r, c, 2⟩ : Move)]
        maxMoves := g.maxMoves } := by
  obtain ⟨b1, h1, hcase, heq⟩ := handle_main pad r c hgo hmap hr hc hempty
  rcases hcase with ⟨_, hb, hl⟩ | ⟨oldest, rest, _, h7, _, _⟩
  · subst hb hl
    by_cases hw : checkWinner (setCell g.board r c g.currentPlayer) = true
    · rw [heq, if_pos hw] at hnw
      simp at hnw
    · rw [heq, if_neg hw]
      simp [hpl, hgo]
  · omega

lemma step_evict_p2 {g : TState} (pad : Pad) (r c : Int) (oldest : Move) (rest : List Move)
    (hgo : g.gameOver = false) (hmap : padToGridPosition pad = (r, c))
    (hr : r ≠ -1) (hc : c ≠ -1) (hempty : g.board r c = 0)
    (hh : g.moveHistory = oldest :: rest) (hlen : 7 ≤ g.moveHistory.length)
    (hpl : g.currentPlayer = 2)
    (hnw : (g.HandlePadPress pad).gameOver = false) :
    g.HandlePadPress pad =
      { board := setCell (setCell g.board oldest.row oldest.col 0) r c 2
        currentPlayer := 1
        gameOver := false
        winner := g.winner
        moveHistory := rest ++ [(⟨r, c, 2⟩ : Move)]
        maxMoves := g.maxMoves } := by
  obtain ⟨b1, h1, hcase, heq⟩ := handle_main pad r c hgo hmap hr hc hempty
  rcases hcase with ⟨hlt, _, _⟩ | ⟨oldest', rest', hmh, _, hb, hl⟩
  · omega
  · rw [hh] at hmh
    obtain ⟨ho, hrest⟩ : oldest' = oldest ∧ rest' = rest := by
      constructor <;> injection hmh <;> simp_all
    subst hb hl
    rw [ho, hrest] at heq
    by_cases hw : checkWinner (setCell (setCell g.board oldest.row oldest.col 0) r c
        g.currentPlayer) = true
    · rw [heq, if_pos hw] at hnw
      simp at hnw
    · rw [heq, if_neg hw]
      simp [hpl, hgo]

set_option maxHeartbeats 2000000 in
/-- Claim C1: in every reachable TicTacToe state the move history holds at most
7 entries; when a placement would make the history exceed 7, the oldest move is
evicted (its board cell set back to empty) before the new move is appended; and
after 8 sequential valid moves at pairwise-distinct empty cells with no winner,
the board holds exactly 7 marks, the first move's cell is empty again, and the
second move's cell still holds its mark (player 2's). -/
theorem C1_history_cap_and_eviction :
    (∀ g : TState, TReachable g → g.moveHistory.length ≤ 7) ∧
    (∀ (g : TState) (pad : Pad) (r c : Int) (oldest : Move) (rest : List Move),
      TReachable g → g.gameOver = false →
      padToGridPosition pad = (r, c) → r ≠ -1 → c ≠ -1 →
      g.board r c = 0 →
      g.moveHistory = oldest :: rest → g.moveHistory.length = 7 →
      (g.HandlePadPress pad).moveHistory = rest ++ [(⟨r, c, g.currentPlayer⟩ : Move)] ∧
      (g.HandlePadPress pad).board oldest.row oldest.col = 0) ∧
    (∀ (p1 p2 p3 p4 p5 p6 p7 p8 : Pad)
      (r1 c1 r2 c2 r3 c3 r4 c4 r5 c5 r6 c6 r7 c7 r8 c8 : Int)
      (s1 s2 s3 s4 s5 s6 s7 s8 : TState),
      padToGridPosition p1 = (r1, c1) → padToGridPosition p2 = (r2, c2) →
      padToGridPosition p3 = (r3, c3) → padToGridPosition p4 = (r4, c4) →
      padToGridPosition p5 = (r5, c5) → padToGridPosition p6 = (r6, c6) →
      padToGridPosition p7 = (r7, c7) → padToGridPosition p8 = (r8, c8) →
      r1 ≠ -1 → c1 ≠ -1 → r2 ≠ -1 → c2 ≠ -1 → r3 ≠ -1 → c3 ≠ -1 → r4 ≠ -1 → c4 ≠ -1 →
      r5 ≠ -1 → c5 ≠ -1 → r6 ≠ -1 → c6 ≠ -1 → r7 ≠ -1 → c7 ≠ -1 → r8 ≠ -1 → c8 ≠ -1 →
      ([(r1, c1), (r2, c2), (r3, c3), (r4, c4), (r5, c5), (r6, c6), (r7, c7), (r8, c8)] :
        List (Int × Int)).Pairwise (· ≠ ·) →
      s1 = ticTacToeStart.HandlePadPress p1 → s2 = s1.HandlePadPress p2 →
      s3 = s2.HandlePadPress p3 → s4 = s3.HandlePadPress p4 →
      s5 = s4.HandlePadPress p5 → s6 = s5.HandlePadPress p6 →
      s7 = s6.HandlePadPress p7 → s8 = s7.HandlePadPress p8 →
      ticTacToeStart.board r1 c1 = 0 → s1.board r2 c2 = 0 → s2.board r3 c3 = 0 →
      s3.board r4 c4 = 0 → s4.board r5 c5 = 0 → s5.board r6 c6 = 0 →
      s6.board r7 c7 = 0 → s7.board r8 c8 = 0 →
      s1.gameOver = false → s2.gameOver = false → s3.gameOver = false →
      s4.gameOver = false → s5.gameOver = false → s6.gameOver = false →
      s7.gameOver = false → s8.gameOver = false →
      countMarks s8.board = 7 ∧ s8.board r1 c1 = 0 ∧ s8.board r2 c2 = 2) := by
  refine ⟨fun g h => (TInv_reachable h).1, ?_, ?_⟩
  · intro g pad r c oldest rest hreach hgo hmap hr hc hempty hh hlen7
    obtain ⟨b1, h1, hcase, heq⟩ := handle_main pad r c hgo hmap hr hc hempty
    rcases hcase with ⟨hlt, _, _⟩ | ⟨o', r', hmh, _, hb, hl⟩
    · omega
    · rw [hh] at hmh
      have ho : o' = oldest := by
        injection hmh with ha hb2
        exact ha.symm
      have hrest : r' = rest := by
        injection hmh with ha hb2
        exact hb2.symm
      subst hb hl
      rw [ho, hrest] at heq
      have hInv := TInv_reachable hreach
      have hoccu := hInv.2.2.1 oldest (by rw [hh]; exact List.mem_cons_self oldest rest)
      have hne : ¬(oldest.row = r ∧ oldest.col = c) := by
        intro hand
        apply hoccu.2
        rw [← hoccu.1, hand.1, hand.2, hempty]
      rw [heq]
      constructor
      · split <;> rfl
      · split <;>
          · show setCell (setCell g.board oldest.row oldest.col 0) r c g.currentPlayer
              oldest.row oldest.col = 0
            rw [setCell_read_ne' _ _ _ _ _ _ hne, setCell_read_eq]
  · intro p1 p2 p3 p4 p5 p6 p7 p8 r1 c1 r2 c2 r3 c3 r4 c4 r5 c5 r6 c6 r7 c7 r8 c8
    intro s1 s2 s3 s4 s5 s6 s7 s8
    intro hm1 hm2 hm3 hm4 hm5 hm6 hm7 hm8
    intro hr1 hc1 hr2 hc2 hr3 hc3 hr4 hc4 hr5 hc5 hr6 hc6 hr7 hc7 hr8 hc8
    intro hpw hs1 hs2 hs3 hs4 hs5 hs6 hs7 hs8
    intro he1 he2 he3 he4 he5 he6 he7 he8
    intro hg1 hg2 hg3 hg4 hg5 hg6 hg7 hg8
    subst hs1 hs2 hs3 hs4 hs5 hs6 hs7 hs8
    simp only [List.pairwise_cons, List.mem_cons, List.not_mem_nil, List.mem_singleton,
      forall_eq_or_imp, forall_eq, List.Pairwise.nil, false_implies, forall_const,
      and_true] at hpw
    obtain ⟨⟨d12, d13, d14, d15, d16, d17, d18⟩, ⟨d23, d24, d25, d26, d27, d28⟩,
      ⟨d34, d35, d36, d37, d38⟩, ⟨d45, d46, d47, d48⟩, ⟨d56, d57, d58⟩,
      ⟨d67, d68⟩, d78⟩ := hpw
    have hrr1 : 0 ≤ r1 ∧ r1 < 3 := by
      have h := grid_row_range p1 (by rw [hm1]; exact hr1); rw [hm1] at h; exact h
    have hcc1 : 0 ≤ c1 ∧ c1 < 3 := by
      have h := grid_col_range p1 (by rw [hm1]; exact hc1); rw [hm1] at h; exact h
    have hrr2 : 0 ≤ r2 ∧ r2 < 3 := by
      have h := grid_row_range p2 (by rw [hm2]; exact hr2); rw [hm2] at h; exact h
    have hcc2 : 0 ≤ c2 ∧ c2 < 3 := by
      have h := grid_col_range p2 (by rw [hm2]; exact hc2); rw [hm2] at h; exact h
    have hrr3 : 0 ≤ r3 ∧ r3 < 3 := by
      have h := grid_row_range p3 (by rw [hm3]; exact hr3); rw [hm3] at h; exact h
    have hcc3 : 0 ≤ c3 ∧ c3 < 3 := by
      have h := grid_col_range p3 (by rw [hm3]; exact hc3); rw [hm3] at h; exact h
    have hrr4 : 0 ≤ r4 ∧ r4 < 3 := by
      have h := grid_row_range p4 (by rw [hm4]; exact hr4); rw [hm4] at h; exact h
    have hcc4 : 0 ≤ c4 ∧ c4 < 3 := by
      have h := grid_col_range p4 (by rw [hm4]; exact hc4); rw [hm4] at h; exact h
    have hrr5 : 0 ≤ r5 ∧ r5 < 3 := by
      have h := grid_row_range p5 (by rw [hm5]; exact hr5); rw [hm5] at h; exact h
    have hcc5 : 0 ≤ c5 ∧ c5 < 3 := by
      have h := grid_col_range p5 (by rw [hm5]; exact hc5); rw [hm5] at h; exact h
    have hrr6 : 0 ≤ r6 ∧ r6 < 3 := by
      have h := grid_row_range p6 (by rw [hm6]; exact hr6); rw [hm6] at h; exact h
    have hcc6 : 0 ≤ c6 ∧ c6 < 3 := by
      have h := grid_col_range p6 (by rw [hm6]; exact hc6); rw [hm6] at h; exact h
    have hrr7 : 0 ≤ r7 ∧ r7 < 3 := by
      have h := grid_row_range p7 (by rw [hm7]; exact hr7); rw [hm7] at h; exact h
    have hcc7 : 0 ≤ c7 ∧ c7 < 3 := by
      have h := grid_col_range p7 (by rw [hm7]; exact hc7); rw [hm7] at h; exact h
    have hrr8 : 0 ≤ r8 ∧ r8 < 3 := by
      have h := grid_row_range p8 (by rw [hm8]; exact hr8); rw [hm8] at h; exact h
    have hcc8 : 0 ≤ c8 ∧ c8 < 3 := by
      have h := grid_col_range p8 (by rw [hm8]; exact hc8); rw [hm8] at h; exact h
    have E1 := step_noEvict_p1 p1 r1 c1 rfl hm1 hr1 hc1 he1
      (by simp [ticTacToeStart]) rfl hg1
    rw [E1] at he2 he3 he4 he5 he6 he7 he8 hg2 hg3 hg4 hg5 hg6 hg7 hg8 ⊢
    have E2 := step_noEvict_p2 p2 r2 c2 rfl hm2 hr2 hc2 he2
      (by simp [ticTacToeStart]) rfl hg2
    rw [E2] at he3 he4 he5 he6 he7 he8 hg3 hg4 hg5 hg6 hg7 hg8 ⊢
    have E3 := step_noEvict_p1 p3 r3 c3 rfl hm3 hr3 hc3 he3
      (by simp [ticTacToeStart]) rfl hg3
    rw [E3] at he4 he5 he6 he7 he8 hg4 hg5 hg6 hg7 hg8 ⊢
    have E4 := step_noEvict_p2 p4 r4 c4 rfl hm4 hr4 hc4 he4
      (by simp [ticTacToeStart]) rfl hg4
    rw [E4] at he5 he6 he7 he8 hg5 hg6 hg7 hg8 ⊢
    have E5 := step_noEvict_p1 p5 r5 c5 rfl hm5 hr5 hc5 he5
      (by simp [ticTacToeStart]) rfl hg5
    rw [E5] at he6 he7 he8 hg6 hg7 hg8 ⊢
    have E6 := step_noEvict_p2 p6 r6 c6 rfl hm6 hr6 hc6 he6
      (by simp [ticTacToeStart]) rfl hg6
    rw [E6] at he7 he8 hg7 hg8 ⊢
    have E7 := step_noEvict_p1 p7 r7 c7 rfl hm7 hr7 hc7 he7
      (by simp [ticTacToeStart]) rfl hg7
    rw [E7] at he8 hg8 ⊢
    have E8 := step_evict_p2 p8 r8 c8 (⟨r1, c1, 1⟩ : Move)
      [(⟨r2, c2, 2⟩ : Move), (⟨r3, c3, 1⟩ : Move), (⟨r4, c4, 2⟩ : Move),
        (⟨r5, c5, 1⟩ : Move), (⟨r6, c6, 2⟩ : Move), (⟨r7, c7, 1⟩ : Move)]
      rfl hm8 hr8 hc8 he8 rfl (by simp [ticTacToeStart]) rfl hg8
    rw [E8]
    dsimp only [ticTacToeStart] at he1 he2 he3 he4 he5 he6 he7 he8 ⊢
    have hc1m : countMarks (setCell emptyBoard r1 c1 1) = 1 := by
      rw [countMarks_set_fresh emptyBoard r1 c1 1 hrr1.1 hrr1.2 hcc1.1 hcc1.2 he1
        (by norm_num), countMarks_empty]
    have hc2m : countMarks (setCell (setCell emptyBoard r1 c1 1) r2 c2 2) = 2 := by
      rw [countMarks_set_fresh _ r2 c2 2 hrr2.1 hrr2.2 hcc2.1 hcc2.2 he2 (by norm_num), hc1m]
    have hc3m : countMarks (setCell (setCell (setCell emptyBoard r1 c1 1) r2 c2 2)
        r3 c3 1) = 3 := by
      rw [countMarks_set_fresh _ r3 c3 1 hrr3.1 hrr3.2 hcc3.1 hcc3.2 he3 (by norm_num), hc2m]
    have hc4m : countMarks (setCell (setCell (setCell (setCell emptyBoard r1 c1 1)
        r2 c2 2) r3 c3 1) r4 c4 2) = 4 := by
      rw [countMarks_set_fresh _ r4 c4 2 hrr4.1 hrr4.2 hcc4.1 hcc4.2 he4 (by norm_num), hc3m]
    have hc5m : countMarks (setCell (setCell (setCell (setCell (setCell emptyBoard
        r1 c1 1) r2 c2 2) r3 c3 1) r4 c4 2) r5 c5 1) = 5 := by
      rw [countMarks_set_fresh _ r5 c5 1 hrr5.1 hrr5.2 hcc5.1 hcc5.2 he5 (by norm_num), hc4m]
    have hc6m : countMarks (setCell (setCell (setCell (setCell (setCell (setCell
        emptyBoard r1 c1 1) r2 c2 2) r3 c3 1) r4 c4 2) r5 c5 1) r6 c6 2) = 6 := by
      rw [countMarks_set_fresh _ r6 c6 2 hrr6.1 hrr6.2 hcc6.1 hcc6.2 he6 (by norm_num), hc5m]
    have hc7m : countMarks (setCell (setCell (setCell (setCell (setCell (setCell (setCell
        emptyBoard r1 c1 1) r2 c2 2) r3 c3 1) r4 c4 2) r5 c5 1) r6 c6 2) r7 c7 1) = 7 := by
      rw [countMarks_set_fresh _ r7 c7 1 hrr7.1 hrr7.2 hcc7.1 hcc7.2 he7 (by norm_num), hc6m]
    have hB7 : (setCell (setCell (setCell (setCell (setCell (setCell (setCell
        emptyBoard r1 c1 1) r2 c2 2) r3 c3 1) r4 c4 2) r5 c5 1) r6 c6 2) r7 c7 1)
        r1 c1 = 1 := by
      rw [setCell_read_ne _ _ _ _ _ _ d17, setCell_read_ne _ _ _ _ _ _ d16,
        setCell_read_ne _ _ _ _ _ _ d15, setCell_read_ne _ _ _ _ _ _ d14,
        setCell_read_ne _ _ _ _ _ _ d13, setCell_read_ne _ _ _ _ _ _ d12,
        setCell_read_eq]
    refine ⟨?_, ?_, ?_⟩
    · have hfresh8 : (setCell (setCell (setCell (setCell (setCell (setCell (setCell
          (setCell emptyBoard r1 c1 1) r2 c2 2) r3 c3 1) r4 c4 2) r5 c5 1) r6 c6 2)
          r7 c7 1) r1 c1 0) r8 c8 = 0 := by
        rw [setCell_read_ne _ _ _ _ _ _ d18.symm]
        exact he8
      rw [countMarks_set_fresh _ r8 c8 2 hrr8.1 hrr8.2 hcc8.1 hcc8.2 hfresh8 (by norm_num)]
      have hB7ne : (setCell (setCell (setCell (setCell (setCell (setCell (setCell
          emptyBoard r1 c1 1) r2 c2 2) r3 c3 1) r4 c4 2) r5 c5 1) r6 c6 2) r7 c7 1)
          r1 c1 ≠ 0 := by
        rw [hB7]
        norm_num
      have hclear := countMarks_clear _ r1 c1 hrr1.1 hrr1.2 hcc1.1 hcc1.2 hB7ne
      omega
    · rw [setCell_read_ne _ _ _ _ _ _ d18, setCell_read_eq]
    · rw [setCell_read_ne _ _ _ _ _ _ d28, setCell_read_ne _ _ _ _ _ _ d12.symm,
        setCell_read_ne _ _ _ _ _ _ d27, setCell_read_ne _ _ _ _ _ _ d26,
        setCell_read_ne _ _ _ _ _ _ d25, setCell_read_ne _ _ _ _ _ _ d24,
        setCell_read_ne _ _ _ _ _ _ d23, setCell_read_eq]

/-- The 8-press scenario used to witness C1: logical cells
(0,0),(0,2),(0,1),(1,0),(1,2),(1,1),(2,0),(2,1), alternating players, no
three-in-a-row at any point. -/
def c1presses : List Pad :=
  [NewPad ⟨7, 1⟩, NewPad ⟨7, 7⟩, NewPad ⟨7, 4⟩, NewPad ⟨4, 1⟩,
    NewPad ⟨4, 7⟩, NewPad ⟨4, 4⟩, NewPad ⟨1, 1⟩, NewPad ⟨1, 4⟩]

set_option maxRecDepth 40000 in
/-- Witness for C1: the invariant at the fresh game, and the 8-move eviction
consequence at the concrete game `c1presses`. -/
theorem C1_history_cap_and_eviction_witness :
    ticTacToeStart.moveHistory.length ≤ 7 ∧
    countMarks (pressSeq ticTacToeStart c1presses).board = 7 ∧
    (pressSeq ticTacToeStart c1presses).board 0 0 = 0 ∧
    (pressSeq ticTacToeStart c1presses).board 0 2 = 2 := by
  have hbase := C1_history_cap_and_eviction.1 ticTacToeStart TReachable.start
  have h := C1_history_cap_and_eviction.2.2
    (NewPad ⟨7, 1⟩) (NewPad ⟨7, 7⟩) (NewPad ⟨7, 4⟩) (NewPad ⟨4, 1⟩)
    (NewPad ⟨4, 7⟩) (NewPad ⟨4, 4⟩) (NewPad ⟨1, 1⟩) (NewPad ⟨1, 4⟩)
    0 0 0 2 0 1 1 0 1 2 1 1 2 0 2 1
    _ _ _ _ _ _ _ _
    (by decide) (by decide) (by decide) (by decide)
    (by decide) (by decide) (by decide) (by decide)
    (by decide) (by decide) (by decide) (by decide)
    (by decide) (by decide) (by decide) (by decide)
    (by decide) (by decide) (by decide) (by decide)
    (by decide) (by decide) (by decide) (by decide)
    (by decide)
    rfl rfl rfl rfl rfl rfl rfl rfl
    (by decide) (by decide) (by decide) (by decide)
    (by decide) (by decide) (by decide) (by decide)
    (by decide) (by decide) (by decide) (by decide)
    (by decide) (by decide) (by decide) (by decide)
  exact ⟨hbase, h.1, h.2.1, h.2.2⟩

/-- The press sequence of claim C2: (row7,col7), (row7,col8), (row4,col4),
(row4,col5), (row1,col1). -/
def c2presses : List Pad :=
  [NewPad ⟨7, 7⟩, NewPad ⟨7, 8⟩, NewPad ⟨4, 4⟩, NewPad ⟨4, 5⟩, NewPad ⟨1, 1⟩]

/-- The C2 press sequence with the 2nd and 4th presses moved to empty cells
((row1,col7) → logical (2,2) and (row1,col4) → logical (2,1)). -/
def c2pressesFixed : List Pad :=
  [NewPad ⟨7, 7⟩, NewPad ⟨1, 7⟩, NewPad ⟨4, 4⟩, NewPad ⟨1, 4⟩, NewPad ⟨1, 1⟩]

set_option maxRecDepth 40000 in
/-- Counterexample to claim C2: after the five presses (row7,col7),
(row7,col8), (row4,col4), (row4,col5), (row1,col1) on a fresh TicTacToe game,
the game is NOT over with winner 1 — `gameOver` is still false, because the
2nd and 4th presses map to the already-occupied cells (0,2) and (1,1) and are
ignored without switching players. -/
theorem C2_diagonal_win_counterexample :
    (pressSeq ticTacToeStart c2presses).gameOver = false ∧
    ¬((pressSeq ticTacToeStart c2presses).gameOver = true ∧
      (pressSeq ticTacToeStart c2presses).winner = 1) := by
  refine ⟨by decide, ?_⟩
  intro h
  have := h.1
  rw [show (pressSeq ticTacToeStart c2presses).gameOver = false by decide] at this
  exact Bool.false_ne_true this

set_option maxRecDepth 40000 in
/-- Claim C2 as amended: the 2nd and 4th presses of the sequence map to the
already-occupied cells (0,2) and (1,1), so they are ignored and do not switch
players; after the 5th press the board holds player 1's marks at (0,2) and
(2,0) and player 2's mark at (1,1), the game is not over, and it is player 2's
turn.  Replacing the 2nd and 4th presses with presses at empty cells
((row1,col7) and (row1,col4)) makes the 5th press complete the
(0,2),(1,1),(2,0) anti-diagonal for player 1 and sets GameOver with
winner = 1. -/
theorem C2_diagonal_win_amended :
    (pressSeq ticTacToeStart c2presses).gameOver = false ∧
    (pressSeq ticTacToeStart c2presses).board 0 2 = 1 ∧
    (pressSeq ticTacToeStart c2presses).board 1 1 = 2 ∧
    (pressSeq ticTacToeStart c2presses).board 2 0 = 1 ∧
    (pressSeq ticTacToeStart c2presses).currentPlayer = 2 ∧
    (pressSeq ticTacToeStart c2pressesFixed).gameOver = true ∧
    (pressSeq ticTacToeStart c2pressesFixed).winner = 1 := by
  refine ⟨by decide, by decide, by decide, by decide, by decide, by decide, by decide⟩

/-- Claim C3: `checkWinner` returns true iff some row, some column, or one of
the two diagonals of the 3x3 board holds three equal nonzero marks; in
particular it is true for rows [[1,1,1],[0,0,0],[0,0,0]] and for
[[1,2,0],[0,1,2],[0,0,1]] (main diagonal of 1s). -/
theorem C3_checkWinner_characterization :
    (∀ b : Board, checkWinner b = true ↔
      ((∃ r : Int, 0 ≤ r ∧ r < 3 ∧ b r 0 ≠ 0 ∧ b r 0 = b r 1 ∧ b r 1 = b r 2) ∨
        (∃ c : Int, 0 ≤ c ∧ c < 3 ∧ b 0 c ≠ 0 ∧ b 0 c = b 1 c ∧ b 1 c = b 2 c) ∨
        (b 0 0 ≠ 0 ∧ b 0 0 = b 1 1 ∧ b 1 1 = b 2 2) ∨
        (b 0 2 ≠ 0 ∧ b 0 2 = b 1 1 ∧ b 1 1 = b 2 0))) ∧
    checkWinner (mkBoard 1 1 1 0 0 0 0 0 0) = true ∧
    checkWinner (mkBoard 1 2 0 0 1 2 0 0 1) = true := by
  refine ⟨?_, by decide, by decide⟩
  intro b
  unfold checkWinner
  simp only [Bool.or_eq_true, decide_eq_true_eq]
  constructor
  · rintro (((((((h | h) | h) | h) | h) | h) | h) | h)
    · exact Or.inl ⟨0, by norm_num, by norm_num, h⟩
    · exact Or.inl ⟨1, by norm_num, by norm_num, h⟩
    · exact Or.inl ⟨2, by norm_num, by norm_num, h⟩
    · exact Or.inr (Or.inl ⟨0, by norm_num, by norm_num, h⟩)
    · exact Or.inr (Or.inl ⟨1, by norm_num, by norm_num, h⟩)
    · exact Or.inr (Or.inl ⟨2, by norm_num, by norm_num, h⟩)
    · exact Or.inr (Or.inr (Or.inl h))
    · exact Or.inr (Or.inr (Or.inr h))
  · rintro (⟨r, hr0, hr3, hcond⟩ | ⟨c, hc0, hc3, hcond⟩ | h | h)
    · interval_cases r
      · exact Or.inl (Or.inl (Or.inl (Or.inl (Or.inl (Or.inl (Or.inl hcond))))))
      · exact Or.inl (Or.inl (Or.inl (Or.inl (Or.inl (Or.inl (Or.inr hcond))))))
      · exact Or.inl (Or.inl (Or.inl (Or.inl (Or.inl (Or.inr hcond)))))
    · interval_cases c
      · exact Or.inl (Or.inl (Or.inl (Or.inl (Or.inr hcond))))
      · exact Or.inl (Or.inl (Or.inl (Or.inr hcond)))
      · exact Or.inl (Or.inl (Or.inr hcond))
    · exact Or.inl (Or.inr h)
    · exact Or.inr h

/-- Claim C4: `padToGridPosition` maps physical rows invertedly (7–8 to 0,
4–5 to 1, 1–2 to 2) and columns directly (1–2 to 0, 4–5 to 1, 7–8 to 2),
yielding -1 outside those bands; and in the `Playing` state (`gameOver`
false) any press with an invalid mapping or an occupied target cell leaves
the whole game state (board, history, player, game-over flag) unchanged. -/
theorem C4_mapping_and_ignored_presses :
    (∀ pad : Pad,
      (7 ≤ pad.pos.row ∧ pad.pos.row ≤ 8 → (padToGridPosition pad).1 = 0) ∧
      (4 ≤ pad.pos.row ∧ pad.pos.row ≤ 5 → (padToGridPosition pad).1 = 1) ∧
      (1 ≤ pad.pos.row ∧ pad.pos.row ≤ 2 → (padToGridPosition pad).1 = 2) ∧
      (¬(7 ≤ pad.pos.row ∧ pad.pos.row ≤ 8) ∧ ¬(4 ≤ pad.pos.row ∧ pad.pos.row ≤ 5) ∧
          ¬(1 ≤ pad.pos.row ∧ pad.pos.row ≤ 2) →
        (padToGridPosition pad).1 = -1) ∧
      (1 ≤ pad.pos.col ∧ pad.pos.col ≤ 2 → (padToGridPosition pad).2 = 0) ∧
      (4 ≤ pad.pos.col ∧ pad.pos.col ≤ 5 → (padToGridPosition pad).2 = 1) ∧
      (7 ≤ pad.pos.col ∧ pad.pos.col ≤ 8 → (padToGridPosition pad).2 = 2) ∧
      (¬(1 ≤ pad.pos.col ∧ pad.pos.col ≤ 2) ∧ ¬(4 ≤ pad.pos.col ∧ pad.pos.col ≤ 5) ∧
          ¬(7 ≤ pad.pos.col ∧ pad.pos.col ≤ 8) →
        (padToGridPosition pad).2 = -1)) ∧
    (∀ (g : TState) (pad : Pad), g.gameOver = false →
      ((padToGridPosition pad).1 = -1 ∨ (padToGridPosition pad).2 = -1 ∨
        g.board (padToGridPosition pad).1 (padToGridPosition pad).2 ≠ 0) →
      g.HandlePadPress pad = g) := by
  constructor
  · intro pad
    unfold padToGridPosition
    dsimp only
    refine ⟨?_, ?_, ?_, ?_, ?_, ?_, ?_, ?_⟩ <;> intro h <;> split_ifs <;> simp_all <;> omega
  · intro g pad hgo h
    rcases h with h | h | h
    · exact handle_invalid pad hgo (Or.inl h)
    · exact handle_invalid pad hgo (Or.inr h)
    · by_cases hv : (padToGridPosition pad).1 = -1 ∨ (padToGridPosition pad).2 = -1
      · exact handle_invalid pad hgo hv
      · exact handle_occupied pad hgo hv h

/-- Witness for C4: a press on the separator row 3 maps to grid row -1 and
leaves a fresh game unchanged; a press at (7,7) maps to logical (0,2). -/
theorem C4_mapping_and_ignored_presses_witness :
    (padToGridPosition (NewPad ⟨7, 7⟩)).1 = 0 ∧
    (padToGridPosition (NewPad ⟨3, 1⟩)).1 = -1 ∧
    ticTacToeStart.HandlePadPress (NewPad ⟨3, 1⟩) = ticTacToeStart := by
  refine ⟨(C4_mapping_and_ignored_presses.1 (NewPad ⟨7, 7⟩)).1 (by decide), ?_, ?_⟩
  · exact (C4_mapping_and_ignored_presses.1 (NewPad ⟨3, 1⟩)).2.2.2.1 (by decide)
  · exact C4_mapping_and_ignored_presses.2 ticTacToeStart (NewPad ⟨3, 1⟩) rfl
      (Or.inl (by decide))

/-- Event classifier: is this a `Stop` call? -/
def GMEvent.isStop : GMEvent → Bool
  | .stop _ => true
  | _ => false

/-- Event classifier: is this a `Start` call? -/
def GMEvent.isStart : GMEvent → Bool
  | .start _ => true
  | _ => false

lemma switch_games_preserved (gm : GameManager) :
    gm.SwitchToNextGame.1.games = gm.games := by
  unfold GameManager.SwitchToNextGame
  split <;> rfl

lemma switch_idx (gm : GameManager) (h : ¬gm.games.length = 0) :
    gm.SwitchToNextGame.1.currentIdx = (gm.currentIdx + 1) % gm.games.length := by
  unfold GameManager.SwitchToNextGame
  rw [if_neg h]

/-- Claim C5: with 3 registered games, three `SwitchToNext` calls return the
manager to the original index; each call on a nonempty list emits exactly one
`Stop` (on the previously active game, when one is active) followed by the
surface clear and exactly one `Start` (on the new game at index
(index+1) mod count); with zero registered games the call is a no-op. -/
theorem C5_switch_to_next :
    (∀ gm : GameManager, gm.games.length = 3 → gm.currentIdx < 3 →
      (switchIter gm 3).currentIdx = gm.currentIdx) ∧
    (∀ gm : GameManager, gm.games ≠ [] →
      gm.SwitchToNextGame.2 =
        (match gm.currentGame with
          | some g => [GMEvent.stop g]
          | none => []) ++
          [GMEvent.clearSurface,
            GMEvent.start (gm.games.getD ((gm.currentIdx + 1) % gm.games.length) 0)] ∧
      (gm.SwitchToNextGame.2.filter GMEvent.isStop).length =
        (if gm.currentGame.isSome then 1 else 0) ∧
      (gm.SwitchToNextGame.2.filter GMEvent.isStart).length = 1 ∧
      gm.SwitchToNextGame.1.currentIdx = (gm.currentIdx + 1) % gm.games.length ∧
      gm.SwitchToNextGame.1.currentGame =
        some (gm.games.getD ((gm.currentIdx + 1) % gm.games.length) 0)) ∧
    (∀ gm : GameManager, gm.games = [] → gm.SwitchToNextGame = (gm, [])) := by
  refine ⟨?_, ?_, ?_⟩
  · intro gm h3 hidx
    have e1g := switch_games_preserved gm
    have e1i := switch_idx gm (by omega)
    have e2g := switch_games_preserved gm.SwitchToNextGame.1
    have e2i := switch_idx gm.SwitchToNextGame.1 (by rw [e1g]; omega)
    have e3i := switch_idx gm.SwitchToNextGame.1.SwitchToNextGame.1
      (by rw [e2g, e1g]; omega)
    show gm.SwitchToNextGame.1.SwitchToNextGame.1.SwitchToNextGame.1.currentIdx =
      gm.currentIdx
    rw [e3i, e2g, e1g, h3, e2i, e1g, h3, e1i, h3]
    omega
  · intro gm hne
    have hlen : ¬gm.games.length = 0 := by simp [hne]
    unfold GameManager.SwitchToNextGame
    rw [if_neg hlen]
    cases hcg : gm.currentGame <;>
      simp [GMEvent.isStop, GMEvent.isStart, List.filter]
  · intro gm h
    unfold GameManager.SwitchToNextGame
    rw [if_pos (by simp [h])]

/-- Witness for C5 at a 3-game manager, an active-game switch, and the empty
manager. -/
theorem C5_switch_to_next_witness :
    (switchIter ⟨none, [4, 5, 6], 0⟩ 3).currentIdx = 0 ∧
    ((⟨some 4, [4, 5, 6], 0⟩ : GameManager).SwitchToNextGame.2 =
      [GMEvent.stop 4, GMEvent.clearSurface, GMEvent.start 5]) ∧
    ((⟨none, [], 0⟩ : GameManager).SwitchToNextGame = (⟨none, [], 0⟩, [])) := by
  refine ⟨C5_switch_to_next.1 ⟨none, [4, 5, 6], 0⟩ (by decide) (by decide), ?_, ?_⟩
  · have h := (C5_switch_to_next.2.1 ⟨some 4, [4, 5, 6], 0⟩ (by decide)).1
    simpa using h
  · exact C5_switch_to_next.2.2 ⟨none, [], 0⟩ rfl

/-- Counterexample to claim C9: `StartCurrentGame` performs no "none active"
check — on a manager whose single game 5 is already active, it still invokes
`Start` (the emitted event list is nonempty), contradicting the claim that
Start is invoked only when no game is currently active. -/
theorem C9_start_current_counterexample :
    ((⟨some 5, [5], 0⟩ : GameManager).StartCurrentGame).2 = [GMEvent.start 5] ∧
    (⟨some 5, [5], 0⟩ : GameManager).currentGame ≠ none := by
  constructor
  · rfl
  · simp

/-- Claim C9 as amended: `StartCurrentGame` activates the game at the current
index and invokes its `Start` whenever at least one game is registered,
regardless of whether a game is already active; it is a no-op (no Start, no
state change) when the game list is empty. -/
theorem C9_start_current_amended :
    (∀ gm : GameManager, 0 < gm.games.length →
      gm.StartCurrentGame =
        ({ gm with currentGame := some (gm.games.getD gm.currentIdx 0) },
          [GMEvent.start (gm.games.getD gm.currentIdx 0)])) ∧
    (∀ gm : GameManager, gm.games = [] → gm.StartCurrentGame = (gm, [])) := by
  constructor
  · intro gm h
    unfold GameManager.StartCurrentGame
    rw [if_pos h]
  · intro gm h
    unfold GameManager.StartCurrentGame
    rw [if_neg (by simp [h])]

/-- Witness for C9 (amended) at a fresh 3-game manager. -/
theorem C9_start_current_amended_witness :
    (⟨none, [4, 5, 6], 0⟩ : GameManager).StartCurrentGame =
      (⟨some 4, [4, 5, 6], 0⟩, [GMEvent.start 4]) := by
  have h := C9_start_current_amended.1 ⟨none, [4, 5, 6], 0⟩ (by decide)
  simpa using h

/-- Claim C10: an inbound control-change press (value > 0) whose decoded
position has row 9 and column in [1,8] is forwarded to the active game's
`HandlePadPress` exactly like a grid press (the same action a NoteOn with
positive velocity produces); only column-9 positions receive special routing:
(row 1, col 9) triggers the game switch and rows 2–8 of column 9 are
dropped. -/
theorem C10_control_routing :
    (∀ key value : Nat, key < 256 → 0 < value →
      (PadPosFromKey key).row = 9 →
      1 ≤ (PadPosFromKey key).col → (PadPosFromKey key).col ≤ 8 →
      midiControlChangeReceived key value = .dispatch (NewPad (PadPosFromKey key)) ∧
      midiControlChangeReceived key value = midiNoteOnReceived key value) ∧
    (∀ key value : Nat, key < 256 →
      (midiControlChangeReceived key value = .switchGame ∨
        midiControlChangeReceived key value = .dropControl) →
      (PadPosFromKey key).col = 9) ∧
    (∀ key value : Nat, key < 256 → 0 < value →
      (PadPosFromKey key).row = 1 → (PadPosFromKey key).col = 9 →
      midiControlChangeReceived key value = .switchGame) ∧
    (∀ key value : Nat, key < 256 → 0 < value →
      2 ≤ (PadPosFromKey key).row → (PadPosFromKey key).row ≤ 8 →
      (PadPosFromKey key).col = 9 →
      midiControlChangeReceived key value = .dropControl) := by
  refine ⟨?_, ?_, ?_, ?_⟩
  · intro key value hk hv h9 hc1 hc8
    unfold PadPosFromKey at h9 hc1 hc8
    dsimp only at h9 hc1 hc8
    unfold midiControlChangeReceived midiNoteOnReceived NewPad PadPosFromKey
    dsimp only
    rw [if_pos hv, if_neg (by omega), if_neg (by omega)]
    exact ⟨rfl, by rw [if_pos hv]⟩
  · intro key value hk h
    unfold midiControlChangeReceived NewPad PadPosFromKey at h
    dsimp only at h
    show key % 10 = 9
    split_ifs at h with hv h1 h2
    · exact h1.2
    · exact h2
    · rcases h with h | h <;> simp at h
    · rcases h with h | h <;> simp at h
  · intro key value hk hv h1 h9
    unfold PadPosFromKey at h1 h9
    dsimp only at h1 h9
    unfold midiControlChangeReceived NewPad PadPosFromKey
    dsimp only
    rw [if_pos hv, if_pos ⟨h1, h9⟩]
  · intro key value hk hv h2 h8 h9
    unfold PadPosFromKey at h2 h8 h9
    dsimp only at h2 h8 h9
    unfold midiControlChangeReceived NewPad PadPosFromKey
    dsimp only
    rw [if_pos hv, if_neg (by omega), if_pos h9]

/-- Witness for C10 at keys 95 (row 9, col 5), 19 (switch) and 59 (dropped
control column). -/
theorem C10_control_routing_witness :
    midiControlChangeReceived 95 127 = .dispatch (NewPad (PadPosFromKey 95)) ∧
    midiControlChangeReceived 19 127 = .switchGame ∧
    midiControlChangeReceived 59 127 = .dropControl := by
  refine ⟨(C10_control_routing.1 95 127 (by decide) (by decide) (by decide)
      (by decide) (by decide)).1,
    C10_control_routing.2.2.1 19 127 (by decide) (by decide) (by decide) (by decide),
    C10_control_routing.2.2.2 59 127 (by decide) (by decide) (by decide) (by decide)
      (by decide)⟩

/-- Claim C7: for every `PadPos` with row, col in [0,9], decoding the derived
key (row*10+col, decoded as key/10 and key%10) yields the position again, the
pad key function agrees with the position key, and the key function is
injective on these 100 positions (hence a bijection onto its image). -/
theorem C7_pad_key_bijection (p : PadPos) (hr : p.row ≤ 9) (hc : p.col ≤ 9) :
    PadPosFromKey p.key = p ∧
    (∀ pad : Pad, pad.getKey = pad.pos.key) ∧
    (∀ q : PadPos, q.row ≤ 9 → q.col ≤ 9 → p.key = q.key → p = q) := by
  obtain ⟨r, c⟩ := p
  simp only [PadPos.key] at *
  refine ⟨?_, fun pad => rfl, ?_⟩
  · have hlt : r * 10 + c < 256 := by omega
    simp only [PadPosFromKey, PadPos.mk.injEq, Nat.mod_eq_of_lt hlt]
    constructor <;> omega
  · intro q hqr hqc hkey
    obtain ⟨qr, qc⟩ := q
    simp only [PadPos.key, PadPos.mk.injEq] at *
    have hlt1 : r * 10 + c < 256 := by omega
    have hlt2 : qr * 10 + qc < 256 := by omega
    rw [Nat.mod_eq_of_lt hlt1, Nat.mod_eq_of_lt hlt2] at hkey
    constructor <;> omega

/-- Witness for C7 at position (3,7), key 37. -/
theorem C7_pad_key_bijection_witness :
    PadPosFromKey (PadPos.key ⟨3, 7⟩) = ⟨3, 7⟩ := by
  exact (C7_pad_key_bijection ⟨3, 7⟩ (by decide) (by decide)).1

/-- The fixed pad and starting registry of the C6 cycle scenario: pad (1,1)
(key 11), registry holding that pad with stored color 0. -/
def cyclePad : Pad := NewPad ⟨1, 1⟩

/-- Registry for the C6 cycle scenario. -/
def cycleReg : Registry := Registry.empty.store 11 (NewPad ⟨1, 1⟩)

/-- Stored color at key 11 after `n` ColorChanger presses of `cyclePad`. -/
def storedColor (n : Nat) : Nat :=
  ((pressTimes cyclePad cycleReg n).read 11).color

/-- Claim C6: for every pressed pad whose key has a (well-formed) registry
entry with stored color c, a ColorChanger press replaces c by c+4 when
c < 128 and by 0 otherwise, and emits the "on" command for the updated pad;
consequently pressing pad (1,1) with stored color 0 yields 4,8,...,124,128
(a value ≥ 128) over the first 32 presses and returns to 0 at press 33
exactly. -/
theorem C6_color_cycle :
    (∀ (pad q : Pad) (m : Registry),
      m pad.getKey = some q → q.getKey = pad.getKey →
      (changeColor pad m).1 pad.getKey = some { q with color := nextColor q.color } ∧
      (changeColor pad m).2 = onCommand { q with color := nextColor q.color }) ∧
    storedColor 0 = 0 ∧
    (∀ n : Nat, n < 33 → 1 ≤ n → storedColor n = 4 * n) ∧
    128 ≤ storedColor 32 ∧
    storedColor 33 = 0 := by
  refine ⟨?_, by decide, ?_, ?_, ?_⟩
  · intro pad q m hm hkey
    have hread : m.read pad.getKey = q := by
      unfold Registry.read
      rw [hm]
      rfl
    have hkey' : ∀ x : Nat, ({ q with color := x } : Pad).getKey = pad.getKey :=
      fun x => hkey
    unfold changeColor
    rw [hread]
    dsimp only
    by_cases hcol : q.color < 128
    · rw [if_pos hcol, sendNote_on]
      constructor
      · show Registry.store m ({ q with color := q.color + 4 } : Pad).getKey _ pad.getKey =
          _
        rw [hkey' (q.color + 4)]
        unfold Registry.store
        simp [nextColor, hcol]
      · show onCommand { q with color := q.color + 4 } = _
        simp [nextColor, hcol]
    · rw [if_neg hcol, sendNote_on]
      constructor
      · show Registry.store m ({ q with color := 0 } : Pad).getKey _ pad.getKey = _
        rw [hkey' 0]
        unfold Registry.store
        simp [nextColor, hcol]
      · show onCommand { q with color := 0 } = _
        simp [nextColor, hcol]
  · decide
  · decide
  · decide

/-- Witness for C6: the first press on the cycle registry stores color 4. -/
theorem C6_color_cycle_witness :
    (changeColor cyclePad cycleReg).1 (Pad.getKey cyclePad) =
      some { NewPad ⟨1, 1⟩ with color := 4 } := by
  have h := (C6_color_cycle.1 cyclePad (NewPad ⟨1, 1⟩) cycleReg (by decide) (by decide)).1
  simpa [nextColor, NewPad] using h

set_option maxHeartbeats 1000000 in
lemma highlight_fixed (cc ci : Nat) (m : Registry) :
    ∀ i : Nat, i < 8 →
      (({ currentColor := cc, colorPalette := NewPixelPaintGame.colorPalette,
          colorIndex := ci } : PixelPaintGame).highlightCurrentColor m).1
          ((i + 1) * 10 + 1) =
        some { pos := ⟨i + 1, 1⟩
               color := NewPixelPaintGame.colorPalette.getD i 0
               lightMode := if i = ci then Pulsing else Permanent } := by
  unfold PixelPaintGame.highlightCurrentColor NewPixelPaintGame
  dsimp only
  rw [show (List.range
      ([ColorRed, ColorOrange, ColorYellow, ColorGreen, ColorCyan, ColorBlue,
        ColorPurple, ColorMagenta, ColorPink, ColorWhite] : List Nat).length) =
      [0, 1, 2, 3, 4, 5, 6, 7, 8, 9] from by decide]
  simp only [List.foldl, sendNote_on]
  norm_num [Pad.getKey]
  intro i hi
  interval_cases i <;>
    simp [Registry.store, ColorRed, ColorOrange, ColorYellow, ColorGreen, ColorCyan,
      ColorBlue, ColorPurple, ColorMagenta, ColorPink, ColorWhite]

/-- Claim C8: pressing a left-column pad (col 1, row r with 1 ≤ r ≤ 8) in
PixelPaint sets the selection index to r-1 and re-renders the 8 swatches so
that exactly the swatch at the selected index has `Pulsing` light mode and the
other seven have `Permanent`; a subsequent press at any pad outside the left
column sets that pad's color to the currently selected palette color and
turns it on. -/
theorem C8_pixel_paint_select_and_paint :
    (∀ (g : PixelPaintGame) (m : Registry) (row : Nat),
      g.colorPalette = NewPixelPaintGame.colorPalette →
      1 ≤ row → row ≤ 8 →
      (g.HandlePadPress (NewPad ⟨row, 1⟩) m).1.colorIndex = row - 1 ∧
      (g.HandlePadPress (NewPad ⟨row, 1⟩) m).1.currentColor =
        g.colorPalette.getD (row - 1) 0 ∧
      (∀ i : Nat, i < 8 →
        (g.HandlePadPress (NewPad ⟨row, 1⟩) m).2.1 ((i + 1) * 10 + 1) =
          some { pos := ⟨i + 1, 1⟩
                 color := g.colorPalette.getD i 0
                 lightMode := if i = row - 1 then Pulsing else Permanent })) ∧
    (∀ (g : PixelPaintGame) (pad : Pad) (m : Registry),
      pad.pos.col ≠ 1 →
      (g.HandlePadPress pad m).1 = g ∧
      (g.HandlePadPress pad m).2.1 pad.getKey =
        some { pad with color := g.currentColor } ∧
      (g.HandlePadPress pad m).2.2 = [onCommand { pad with color := g.currentColor }]) := by
  constructor
  · intro g m row hpal h1 h8
    obtain ⟨cc, cp, ci⟩ := g
    simp only at hpal
    subst hpal
    unfold PixelPaintGame.HandlePadPress
    rw [if_pos (show (NewPad ⟨row, 1⟩).pos.col = 1 ∧ 1 ≤ (NewPad ⟨row, 1⟩).pos.row ∧
        (NewPad ⟨row, 1⟩).pos.row ≤ 8 from ⟨rfl, h1, h8⟩)]
    dsimp only
    rw [if_pos (show (NewPad ⟨row, 1⟩).pos.row - 1 <
        (NewPixelPaintGame.colorPalette).length from by
      simp [NewPixelPaintGame, NewPad]
      omega)]
    refine ⟨rfl, rfl, ?_⟩
    intro i hi
    exact highlight_fixed _ _ m i hi
  · intro g pad m hcol
    unfold PixelPaintGame.HandlePadPress
    rw [if_neg (fun h => hcol h.1)]
    dsimp only
    rw [sendNote_on]
    refine ⟨rfl, ?_, rfl⟩
    have hk : ({ pad with color := g.currentColor } : Pad).getKey = pad.getKey := rfl
    rw [hk]
    unfold Registry.store
    simp

/-- Witness for C8: selecting swatch 3 pulses exactly the third swatch, and a
paint press at (5,5) stores the selected red. -/
theorem C8_pixel_paint_select_and_paint_witness :
    (NewPixelPaintGame.HandlePadPress (NewPad ⟨3, 1⟩) Registry.empty).1.colorIndex = 2 ∧
    (NewPixelPaintGame.HandlePadPress (NewPad ⟨3, 1⟩) Registry.empty).2.1 31 =
      some { pos := ⟨3, 1⟩, color := ColorYellow, lightMode := Pulsing } ∧
    (NewPixelPaintGame.HandlePadPress (NewPad ⟨3, 1⟩) Registry.empty).2.1 11 =
      some { pos := ⟨1, 1⟩, color := ColorRed, lightMode := Permanent } ∧
    (NewPixelPaintGame.HandlePadPress (NewPad ⟨5, 5⟩) Registry.empty).2.1 55 =
      some { pos := ⟨5, 5⟩, color := ColorRed, lightMode := Permanent } := by
  have h1 := C8_pixel_paint_select_and_paint.1 NewPixelPaintGame Registry.empty 3
    rfl (by decide) (by decide)
  have h2 := C8_pixel_paint_select_and_paint.2 NewPixelPaintGame (NewPad ⟨5, 5⟩)
    Registry.empty (by decide)
  refine ⟨h1.1, ?_, ?_, ?_⟩
  · have := h1.2.2 2 (by decide)
    simpa [NewPixelPaintGame, ColorYellow, Pulsing] using this
  · have := h1.2.2 0 (by decide)
    simpa [NewPixelPaintGame, ColorRed, Permanent] using this
  · have := h2.2.1
    simpa [NewPad, NewPixelPaintGame, onCommand, ColorRed, Pad.getKey] using this
